import Mathlib

/-!
Verification of the log-rotation subsystem of vibe-logger-go.

The definitions below are a shallow embedding of the Go sources
`pkg/vibelogger/rotation.go` (the current version: cached file size,
pending-rotation flag, async channel) and `logger.go` (`Logger.Close`,
`writeEntry`).  Filesystem and clock effects are passed in explicitly as
environment parameters (stat results, rename/remove/open outcomes,
modification times, the current time), and each operation additionally
returns the list of filesystem operations it performed, so that theorems
can speak about which files were renamed, removed or opened.

Machine integers (`int64`, `int`) are modelled as `Int`; none of the
verified properties depend on 64-bit overflow.  The per-logger mutexes are
not modelled: every embedded operation is the body of one critical
section, executed atomically, which matches the lock structure of the
source.
-/

namespace VibeLogger

/-- Error returned by closing a file handle.  `alreadyClosed` models Go's
`os.ErrClosed`; `other` models any other close failure. -/
inductive CloseErr where
  | alreadyClosed
  | other (msg : String)
deriving Repr, DecidableEq

/-- A Go `*os.File`.  `path` is where the handle was opened, `closed`
whether it has been closed, `closeRes` the error that a `Close()` call on
the still-open handle returns (`none` = success), and `writeOk` whether
writes to the open handle succeed. -/
structure FileHandle where
  path : String
  closed : Bool
  closeRes : Option CloseErr
  writeOk : Bool
deriving Repr, DecidableEq

/-- Go semantics of `file.Close()`: closing an already-closed `os.File`
returns `os.ErrClosed`; otherwise the handle becomes closed and the call
returns the handle's close outcome. -/
def goClose (h : FileHandle) : Option CloseErr × FileHandle :=
  if h.closed then (some CloseErr.alreadyClosed, h)
  else (h.closeRes, { h with closed := true })

/-- The fields of `LoggerConfig` (config.go) consumed by the rotation
subsystem. -/
structure LoggerConfig where
  rotationEnabled : Bool
  maxFileSize : Int
  maxRotatedFiles : Int
  autoSave : Bool
deriving Repr, DecidableEq

/-- A filesystem operation performed by the rotation subsystem, recorded
so theorems can state which effects occurred. -/
inductive FsOp where
  | closeOp
  | rename (src dst : String)
  | remove (path : String)
  | openOp (path : String)
deriving Repr, DecidableEq

/-- The combined mutable state of a `Logger` and its `RotationManager`.
In Go the two structs point at each other (`Logger.rotationMgr`,
`RotationManager.logger`), so they form one shared state; the embedding
flattens them into a single record.  `rmPresent` is `Logger.rotationMgr
!= nil`; `asyncChanClosed` is whether `rm.asyncRotationChan` has been
closed.  Times are integer nanoseconds. -/
structure Sys where
  file : Option FileHandle
  currentSize : Int
  config : LoggerConfig
  rmPresent : Bool
  basePath : String
  rotatedFiles : List String
  cachedFileSize : Int
  lastSizeSync : Int
  sizeSyncInterval : Int
  pendingRotation : Bool
  asyncChanClosed : Bool
deriving Repr, DecidableEq

/-- The comparator used by `sort.Slice` in `cleanupOldFiles` and
`scanExistingRotatedFiles`: newest first, i.e. `b` may follow `a` when
`mt b ≤ mt a`.  `mt` gives each path's filesystem modification time (all
`os.Stat` calls inside the comparator are assumed to succeed). -/
def newerFirst (mt : String → Nat) (a b : String) : Prop :=
  mt b ≤ mt a

instance (mt : String → Nat) : DecidableRel (newerFirst mt) := fun a b =>
  inferInstanceAs (Decidable (mt b ≤ mt a))

instance (mt : String → Nat) : IsTotal String (newerFirst mt) :=
  ⟨fun a b => Nat.le_total (mt b) (mt a)⟩

instance (mt : String → Nat) : IsTrans String (newerFirst mt) :=
  ⟨fun _ _ _ hab hbc => Nat.le_trans hbc hab⟩

/-- The deletion loop of `cleanupOldFiles` (rotation.go): `os.Remove` each
file in order; the first failure returns immediately with an error naming
the failing file, skipping the rest.  Returns the successfully removed
files, the failing file (if any), and the remove operations attempted. -/
def removeFiles (removeOk : String → Bool) :
    List String → List String × Option String × List FsOp
  | [] => ([], none, [])
  | f :: rest =>
    if removeOk f then
      match removeFiles removeOk rest with
      | (d, e, ops) => (f :: d, e, FsOp.remove f :: ops)
    else ([], some f, [FsOp.remove f])

/-- `cleanupOldFiles` (rotation.go): keep all files when
`MaxRotatedFiles <= 0`; otherwise sort the rotated-files list newest
first (the in-place `sort.Slice` is modelled by `List.insertionSort`,
one valid result of sorting with the `After` comparator), and when the
list is longer than the limit, delete every file beyond it.  On a
deletion failure the list stays the full sorted list (the truncation is
skipped); on success it is truncated to the limit.  Returns the new
rotated-files list, the error, and the filesystem operations. -/
def cleanupOldFiles (maxRotated : Int) (mt : String → Nat)
    (removeOk : String → Bool) (files : List String) :
    List String × Option String × List FsOp :=
  if maxRotated ≤ 0 then (files, none, [])
  else
    let sorted := List.insertionSort (newerFirst mt) files
    if maxRotated < (sorted.length : Int) then
      let toDelete := sorted.drop maxRotated.toNat
      match removeFiles removeOk toDelete with
      | (_, some e, ops) => (sorted, some e, ops)
      | (_, none, ops) => (sorted.take maxRotated.toNat, none, ops)
    else (sorted, none, [])

/-- A value of Go's `time.Time` as consumed by the rotation code: the
calendar fields used by `Format` and the instant in nanoseconds used by
`time.Since` / assignment to `lastSizeSync`. -/
structure GoTime where
  year : Nat
  month : Nat
  day : Nat
  hour : Nat
  minute : Nat
  second : Nat
  unixNano : Int
deriving Repr, DecidableEq

/-- Zero-pad a numeral to two digits, as Go's `Format` does for the
layout elements `01 02 15 04 05`. -/
def pad2 (n : Nat) : String :=
  if n < 10 then "0" ++ toString n else toString n

/-- Zero-pad a numeral to four digits, as Go's `Format` does for the
layout element `2006`. -/
def pad4 (n : Nat) : String :=
  if n < 10 then "000" ++ toString n
  else if n < 100 then "00" ++ toString n
  else if n < 1000 then "0" ++ toString n
  else toString n

/-- `t.Format("20060102_150405")`, the timestamp used for rotated file
names in `PerformRotation` (rotation.go): date, an underscore, time. -/
def goFormatTimestamp (t : GoTime) : String :=
  pad4 t.year ++ pad2 t.month ++ pad2 t.day ++ "_" ++
    pad2 t.hour ++ pad2 t.minute ++ pad2 t.second

/-- Modelled from the spec: the rotated-file timestamp as the spec
describes it, `YYYYMMDDHHMMSS` at second resolution with no separator
other than the dot before it.  Used only to compare the spec's naming
claim with the source's `goFormatTimestamp`. -/
def specTimestamp (t : GoTime) : String :=
  pad4 t.year ++ pad2 t.month ++ pad2 t.day ++
    pad2 t.hour ++ pad2 t.minute ++ pad2 t.second

/-- `syncFileSize` (rotation.go): on a successful `os.Stat` of the base
path, both the manager's cached size and the logger's `currentSize` are
set to the stat size; on a stat failure neither is touched.  In both
cases the staleness clock is reset to now. -/
def syncFileSize (s : Sys) (statResult : Option Int) (now : Int) : Sys :=
  match statResult with
  | some size =>
      { s with cachedFileSize := size, currentSize := size, lastSizeSync := now }
  | none => { s with lastSizeSync := now }

/-- The clock and the results of the up to two `os.Stat` calls that one
`ShouldRotate` call can make: `stat1` for the staleness resync, `stat2`
for the forced high-water resync (`none` = stat failure). -/
structure SizeEnv where
  now : Int
  stat1 : Option Int
  stat2 : Option Int
deriving Repr, DecidableEq

/-- `ShouldRotate` (rotation.go).  Returns false when rotation is
disabled, a rotation is pending, or `MaxFileSize <= 0`.  Otherwise it
resyncs the cached size when stale, compares `cachedFileSize + entry`
against the limit, and, when that would exceed and the cached size is
above `MaxFileSize*8/10`, forces a second resync and re-compares.
Returns the decision and the state as mutated by the resyncs. -/
def shouldRotate (s : Sys) (env : SizeEnv) (newEntrySize : Int) : Bool × Sys :=
  if !s.config.rotationEnabled || s.pendingRotation then (false, s)
  else if s.config.maxFileSize ≤ 0 then (false, s)
  else
    let s1 := if s.sizeSyncInterval < env.now - s.lastSizeSync then
        syncFileSize s env.stat1 env.now
      else s
    let wouldExceed := decide (s.config.maxFileSize < s1.cachedFileSize + newEntrySize)
    if wouldExceed && decide (s.config.maxFileSize * 8 / 10 < s1.cachedFileSize) then
      let s2 := syncFileSize s1 env.stat2 env.now
      (decide (s.config.maxFileSize < s2.cachedFileSize + newEntrySize), s2)
    else (wouldExceed, s1)

/-- Modelled from the spec: `ShouldRotate` as claim C2 words it — false
when rotation is disabled, a rotation is already pending, or
`maxFileSize ≤ 0`; otherwise true exactly when `cachedSize + entrySize >
maxFileSize`, after first resynchronizing when the cache is older than
the sync interval, and re-synchronizing and re-deciding when the
comparison would exceed and the cached size is above 80 percent of
`maxFileSize` (stated exactly as `10 * cached > 8 * maxFileSize`). -/
def shouldRotateClaim (s : Sys) (env : SizeEnv) (newEntrySize : Int) : Bool :=
  if !s.config.rotationEnabled || s.pendingRotation then false
  else if s.config.maxFileSize ≤ 0 then false
  else
    let s1 := if s.sizeSyncInterval < env.now - s.lastSizeSync then
        syncFileSize s env.stat1 env.now
      else s
    let wouldExceed := decide (s.config.maxFileSize < s1.cachedFileSize + newEntrySize)
    if wouldExceed && decide (8 * s.config.maxFileSize < 10 * s1.cachedFileSize) then
      let s2 := syncFileSize s1 env.stat2 env.now
      decide (s.config.maxFileSize < s2.cachedFileSize + newEntrySize)
    else wouldExceed

/-- `updateCachedSize` (rotation.go): adds the written delta to the
manager's cached size.  No caller exists anywhere in the repository. -/
def updateCachedSize (s : Sys) (deltaSize : Int) : Sys :=
  { s with cachedFileSize := s.cachedFileSize + deltaSize }

/-- Error results of `PerformRotation`. -/
inductive RotErr where
  | closeFailed (e : CloseErr)
  | renameFailed
  | openFailed
deriving Repr, DecidableEq

/-- The external effects consumed by one `PerformRotation` call: the
current time, the outcome of `os.Rename` and of the `os.OpenFile` that
recreates the live file, and the modification times and `os.Remove`
outcomes consumed by the cleanup pass. -/
structure RotEnv where
  now : GoTime
  renameOk : Bool
  openOk : Bool
  mt : String → Nat
  removeOk : String → Bool

/-- The tail of `PerformRotation` after the close step succeeded (or was
skipped because `logger.file` was nil): build the timestamped name,
rename, append to the rotated list, clean up (a cleanup error is only
warned about), reopen the live file, reset the size caches. -/
def performRotationAfterClose (s : Sys) (env : RotEnv) (ops : List FsOp) :
    Option RotErr × Sys × List FsOp :=
  let rotatedPath := s.basePath ++ "." ++ goFormatTimestamp env.now
  let ops1 := ops ++ [FsOp.rename s.basePath rotatedPath]
  if !env.renameOk then (some RotErr.renameFailed, s, ops1)
  else
    match cleanupOldFiles s.config.maxRotatedFiles env.mt env.removeOk
        (s.rotatedFiles ++ [rotatedPath]) with
    | (files2, _, cleanOps) =>
      -- a cleanup error is reported through `logger.Warn` and does not
      -- fail the rotation
      let s2 := { s with rotatedFiles := files2 }
      let ops2 := ops1 ++ cleanOps ++ [FsOp.openOp s.basePath]
      if !env.openOk then (some RotErr.openFailed, s2, ops2)
      else
        (none,
         { s2 with
            file := some { path := s.basePath, closed := false,
                           closeRes := none, writeOk := true },
            currentSize := 0, cachedFileSize := 0,
            lastSizeSync := env.now.unixNano },
         ops2)

/-- `PerformRotation` (rotation.go).  Under the manager's mutex: a
pending rotation makes the call a successful no-op; otherwise the pending
flag is held for the duration (a deferred reset clears it on every exit
path, so it is false again in every returned state), the live file is
closed (any close error aborts), renamed to the timestamped path (a
rename failure aborts), the rotated list is extended and cleaned up, and
a fresh live file is opened (an open failure aborts). -/
def performRotation (s : Sys) (env : RotEnv) : Option RotErr × Sys × List FsOp :=
  if s.pendingRotation then (none, s, [])
  else
    match s.file with
    | some h =>
      match goClose h with
      | (some e, h2) =>
          (some (RotErr.closeFailed e), { s with file := some h2 }, [FsOp.closeOp])
      | (none, h2) =>
          performRotationAfterClose { s with file := some h2 } env [FsOp.closeOp]
    | none => performRotationAfterClose s env []

/-- Errors returned by `writeEntry`. -/
inductive WriteErr where
  | marshalFailed
  | rotationFailed (e : RotErr)
  | writeFailed
deriving Repr, DecidableEq

/-- Result of a `writeEntry` call.  `panicked` is included so that
"returns an error rather than panicking" is expressible; no execution
path of the embedded code produces it, matching the Go source, where
every failure is a returned `error`. -/
inductive WriteResult where
  | ok
  | err (e : WriteErr)
  | panicked
deriving Repr, DecidableEq

/-- The external inputs of one `writeEntry` call: whether the JSON
marshal succeeds, the marshalled length `len(jsonData)`, and the
environments of the `ShouldRotate` and `PerformRotation` calls it may
make. -/
structure WriteEnv where
  marshalOk : Bool
  jsonLen : Nat
  sizeEnv : SizeEnv
  rotEnv : RotEnv

/-- The write step of `writeEntry`: `file.Write(jsonData)` then
`file.WriteString("\n")` on the (possibly just-rotated) handle, then
`l.currentSize += entrySize`.  A write to a closed or failing handle
returns an error (Go's `os.File` returns `ErrClosed`, it does not
panic). -/
def writeBytes (s : Sys) (entrySize : Int) : WriteResult × Sys :=
  match s.file with
  | some h =>
    if h.closed || !h.writeOk then (WriteResult.err WriteErr.writeFailed, s)
    else (WriteResult.ok, { s with currentSize := s.currentSize + entrySize })
  | none => (WriteResult.err WriteErr.writeFailed, s)

/-- `writeEntry` (logger.go).  Under the logger's mutex: marshal the
entry (a failure aborts); when `AutoSave` is on and a file is open,
compute `entrySize = len(jsonData) + 1`, ask `ShouldRotate` if a
rotation manager exists and perform the rotation when it says so (a
rotation error aborts), write the bytes and the newline, and add the
delta to the logger's `currentSize` — and to nothing else: the rotation
manager's `cachedFileSize` is not adjusted (`updateCachedSize` has no
caller).  The in-memory log and the console echo are omitted: they touch
neither the file nor the rotation state. -/
def writeEntry (s : Sys) (env : WriteEnv) : WriteResult × Sys :=
  if !env.marshalOk then (WriteResult.err WriteErr.marshalFailed, s)
  else if s.config.autoSave && s.file.isSome then
    let entrySize : Int := (env.jsonLen : Int) + 1
    match (if s.rmPresent then shouldRotate s env.sizeEnv entrySize
           else (false, s)) with
    | (true, s1) =>
      match performRotation s1 env.rotEnv with
      | (some e, s2, _) => (WriteResult.err (WriteErr.rotationFailed e), s2)
      | (none, s2, _) => writeBytes s2 entrySize
    | (false, s1) => writeBytes s1 entrySize
  else (WriteResult.ok, s)

/-- `Logger.Close` (logger.go): close the file if one is open, set the
field to nil to prevent a double close, and return the close error;
with no open file return nil. -/
def loggerClose (s : Sys) : Option CloseErr × Sys :=
  match s.file with
  | some h =>
    match goClose h with
    | (res, _) => (res, { s with file := none })
  | none => (none, s)

/-- Outcome of `RotationManager.Close`: Go's `close` on a channel either
succeeds or panics with "close of closed channel". -/
inductive CloseOutcome where
  | ok
  | panicked
deriving Repr, DecidableEq

/-- `RotationManager.Close` (rotation.go): `close(rm.asyncRotationChan)`
with no guard.  Per the Go specification, closing an already-closed
channel panics at run time. -/
def rmClose (s : Sys) : CloseOutcome × Sys :=
  if s.asyncChanClosed then (CloseOutcome.panicked, s)
  else (CloseOutcome.ok, { s with asyncChanClosed := true })

/-! Concrete fixtures used by witnesses and counterexamples. -/

/-- A sample open live-file handle. -/
def sampleHandle : FileHandle :=
  { path := "app.log", closed := false, closeRes := none, writeOk := true }

/-- A sample logger state with rotation enabled, a 1000-byte limit, no
retention limit, the async channel still open, and a fresh size cache. -/
def sampleSys : Sys :=
  { file := some sampleHandle
    currentSize := 0
    config := { rotationEnabled := true, maxFileSize := 1000,
                maxRotatedFiles := 0, autoSave := true }
    rmPresent := true
    basePath := "app.log"
    rotatedFiles := []
    cachedFileSize := 0
    lastSizeSync := 0
    sizeSyncInterval := 10000000000
    pendingRotation := false
    asyncChanClosed := false }

/-- A sample rotation environment in which every filesystem call
succeeds, taken at 2025-01-02 12:30:45. -/
def sampleRotEnv : RotEnv :=
  { now := { year := 2025, month := 1, day := 2, hour := 12, minute := 30,
             second := 45, unixNano := 1735821045000000000 }
    renameOk := true
    openOk := true
    mt := fun _ => 5
    removeOk := fun _ => true }

/-! ## C5 — stat failure during size synchronization -/

/-- C5 counterexample: the claim says a stat failure makes the tracker
treat the file as size 0 (cached size set to 0).  On a state whose
cached size is 42, `syncFileSize` with a failed stat leaves the cached
size at 42, not 0. -/
theorem c5_counterexample :
    (syncFileSize { sampleSys with cachedFileSize := 42 } none 99).cachedFileSize = 42 ∧
    (syncFileSize { sampleSys with cachedFileSize := 42 } none 99).cachedFileSize ≠ 0 := by
  exact ⟨rfl, by decide⟩

/-- C5 amended: a stat failure does not crash the tracker (the embedded
`syncFileSize` is total and returns normally), but it leaves both the
cached size and the logger's `currentSize` unchanged rather than setting
them to 0; only the staleness clock is reset to now. -/
theorem c5_sync_stat_failure (s : Sys) (now : Int) :
    (syncFileSize s none now).cachedFileSize = s.cachedFileSize ∧
    (syncFileSize s none now).currentSize = s.currentSize ∧
    (syncFileSize s none now).lastSizeSync = now := by
  exact ⟨rfl, rfl, rfl⟩

/-! ## C8 — duplicate-rotation suppression -/

/-- C8: when `PerformRotation` is entered while a rotation is already
pending, it returns success (no error), leaves the whole state
unchanged, and performs no filesystem operation at all. -/
theorem c8_duplicate_suppression (s : Sys) (env : RotEnv)
    (h : s.pendingRotation = true) :
    performRotation s env = (none, s, []) := by
  unfold performRotation
  rw [h]
  rfl

/-- C8 witness: the suppression theorem applied to a concrete pending
state. -/
theorem c8_duplicate_suppression_witness :
    performRotation { sampleSys with pendingRotation := true } sampleRotEnv =
      (none, { sampleSys with pendingRotation := true }, []) :=
  c8_duplicate_suppression { sampleSys with pendingRotation := true }
    sampleRotEnv rfl

/-! ## C3 — idempotency of Close -/

/-- C3 counterexample: the claim says a second `Close()` never panics on
any logger/rotation-manager state.  On the sample state the first
`RotationManager.Close` succeeds, and the second panics (Go panics when
closing an already-closed channel). -/
theorem c3_counterexample :
    (rmClose sampleSys).1 = CloseOutcome.ok ∧
    (rmClose (rmClose sampleSys).2).1 = CloseOutcome.panicked := by
  decide

/-- C3 amended: `Logger.Close` is idempotent — after a first close, a
second `Close()` returns nil and leaves the state unchanged — but
`RotationManager.Close` is not: after a first call on a state whose
async channel is still open, a second call panics (close of a closed
channel). -/
theorem c3_close_semantics (s : Sys) :
    ((loggerClose (loggerClose s).2).1 = none ∧
     (loggerClose (loggerClose s).2).2 = (loggerClose s).2) ∧
    (s.asyncChanClosed = false →
      (rmClose s).1 = CloseOutcome.ok ∧
      (rmClose (rmClose s).2).1 = CloseOutcome.panicked) := by
  constructor
  · cases hf : s.file with
    | some h => simp [loggerClose, hf]
    | none => simp [loggerClose, hf]
  · intro h
    simp [rmClose, h]

/-- C3 witness: the amended close semantics applied to the sample state,
whose async channel is open. -/
theorem c3_close_semantics_witness :
    ((loggerClose (loggerClose sampleSys).2).1 = none ∧
     (loggerClose (loggerClose sampleSys).2).2 = (loggerClose sampleSys).2) ∧
    ((rmClose sampleSys).1 = CloseOutcome.ok ∧
     (rmClose (rmClose sampleSys).2).1 = CloseOutcome.panicked) :=
  ⟨(c3_close_semantics sampleSys).1, (c3_close_semantics sampleSys).2 rfl⟩

/-! ## C2 — the ShouldRotate decision -/

/-- C2: `ShouldRotate` computes exactly the decision the claim
describes: false whenever rotation is disabled, a rotation is pending,
or `maxFileSize ≤ 0` (so in the unlimited case no write ever triggers
rotation, whatever the state); otherwise `cachedSize + entrySize >
maxFileSize` after the staleness resync, re-decided after a forced
resync when the comparison would exceed and the cached size is above 80
percent of the limit.  The only textual difference between the two
sides is the high-water test, `cached > maxFileSize*8/10` in the source
against `10*cached > 8*maxFileSize` in the claim; they agree for every
integer. -/
theorem c2_shouldRotate_matches_claim (s : Sys) (env : SizeEnv) (e : Int) :
    (shouldRotate s env e).1 = shouldRotateClaim s env e := by
  have hcond : decide (s.config.maxFileSize * 8 / 10 <
        (if s.sizeSyncInterval < env.now - s.lastSizeSync then
            syncFileSize s env.stat1 env.now else s).cachedFileSize) =
      decide (8 * s.config.maxFileSize < 10 *
        (if s.sizeSyncInterval < env.now - s.lastSizeSync then
            syncFileSize s env.stat1 env.now else s).cachedFileSize) :=
    decide_eq_decide.mpr (by omega)
  by_cases h1 : (!s.config.rotationEnabled || s.pendingRotation) = true
  · simp [shouldRotate, shouldRotateClaim, h1]
  · by_cases h2 : s.config.maxFileSize ≤ 0
    · simp [shouldRotate, shouldRotateClaim, h1, h2]
    · simp only [shouldRotate, shouldRotateClaim, h1, h2, if_false,
        Bool.false_eq_true, ite_false, hcond]
      split
      · split <;> rfl
      · split <;> rfl

/-! ## C6 — rotated-file naming -/

/-- The close step of `PerformRotation` succeeds on this state: any open
file handle is not yet closed and closes without error. -/
def closeStepOk (s : Sys) : Prop :=
  ∀ h, s.file = some h → (h.closed = false ∧ h.closeRes = none)

/-- Naming facts about the tail of the rotation: the rename targets
exactly `basePath ++ "." ++ goFormatTimestamp now`, and a successful
rotation leaves an open live handle at exactly `basePath`. -/
theorem afterClose_name_props (s : Sys) (env : RotEnv) (ops : List FsOp) :
    FsOp.rename s.basePath (s.basePath ++ "." ++ goFormatTimestamp env.now) ∈
      (performRotationAfterClose s env ops).2.2 ∧
    ((performRotationAfterClose s env ops).1 = none →
      ∃ h2, (performRotationAfterClose s env ops).2.1.file = some h2 ∧
        h2.path = s.basePath ∧ h2.closed = false) := by
  unfold performRotationAfterClose
  by_cases hr : env.renameOk = true
  · simp only [hr, Bool.not_true, Bool.false_eq_true, if_false]
    by_cases ho : env.openOk = true
    · simp [ho]
    · simp only [Bool.not_eq_true] at ho
      simp [ho]
  · simp only [Bool.not_eq_true] at hr
    simp [hr]

/-- C6 counterexample: the claim says the rotated name is `basePath`
followed by a dot and a `YYYYMMDDHHMMSS` timestamp with no other
separator.  Rotating the sample state at 2025-01-02 12:30:45 produces
`app.log.20250102_123045`, which contains an underscore between date
and time and differs from the claimed `app.log.20250102123045`. -/
theorem c6_counterexample :
    (performRotation sampleSys sampleRotEnv).2.1.rotatedFiles =
      ["app.log.20250102_123045"] ∧
    "app.log.20250102_123045" ≠
      sampleSys.basePath ++ "." ++ specTimestamp sampleRotEnv.now := by
  constructor
  · decide
  · decide

/-- C6 amended: whenever `PerformRotation` actually rotates (no rotation
pending, the close step succeeds), the rename it performs targets
exactly `basePath ++ "." ++ t.Format("20060102_150405")` — second
resolution, with an underscore between the date and time fields — and on
success the reopened live file sits at exactly `basePath`. -/
theorem c6_rotated_name (s : Sys) (env : RotEnv)
    (hp : s.pendingRotation = false) (hc : closeStepOk s) :
    FsOp.rename s.basePath (s.basePath ++ "." ++ goFormatTimestamp env.now) ∈
      (performRotation s env).2.2 ∧
    ((performRotation s env).1 = none →
      ∃ h2, (performRotation s env).2.1.file = some h2 ∧
        h2.path = s.basePath ∧ h2.closed = false) := by
  cases hf : s.file with
  | none =>
    have he : performRotation s env = performRotationAfterClose s env [] := by
      unfold performRotation
      rw [hp, hf]
      rfl
    rw [he]
    exact afterClose_name_props s env []
  | some h =>
    obtain ⟨hcl, hcr⟩ := hc h hf
    have hgc : goClose h = (none, { h with closed := true }) := by
      simp [goClose, hcl, hcr]
    have hmid : performRotation s env =
        match goClose h with
        | (some e, h2) =>
            (some (RotErr.closeFailed e), { s with file := some h2 }, [FsOp.closeOp])
        | (none, h2) =>
            performRotationAfterClose { s with file := some h2 } env [FsOp.closeOp] := by
      unfold performRotation
      rw [hp, hf]
      rfl
    have he : performRotation s env =
        performRotationAfterClose { s with file := some { h with closed := true } }
          env [FsOp.closeOp] := by
      rw [hmid, hgc]
    rw [he]
    exact afterClose_name_props
      { s with file := some { h with closed := true } } env [FsOp.closeOp]

/-- C6 witness: the amended naming theorem applied to the sample state
and the all-success environment. -/
theorem c6_rotated_name_witness :
    FsOp.rename sampleSys.basePath
        (sampleSys.basePath ++ "." ++ goFormatTimestamp sampleRotEnv.now) ∈
      (performRotation sampleSys sampleRotEnv).2.2 ∧
    ((performRotation sampleSys sampleRotEnv).1 = none →
      ∃ h2, (performRotation sampleSys sampleRotEnv).2.1.file = some h2 ∧
        h2.path = sampleSys.basePath ∧ h2.closed = false) :=
  c6_rotated_name sampleSys sampleRotEnv rfl
    (by
      intro h hh
      have hh2 : some sampleHandle = some h := hh
      cases Option.some.inj hh2
      exact ⟨rfl, rfl⟩)

/-! ## C1 — retention invariant of the cleanup pass -/

/-- The paths removed by a list of filesystem operations. -/
def removedPaths : List FsOp → List String
  | [] => []
  | FsOp.remove p :: rest => p :: removedPaths rest
  | FsOp.closeOp :: rest => removedPaths rest
  | FsOp.rename _ _ :: rest => removedPaths rest
  | FsOp.openOp _ :: rest => removedPaths rest

/-- When the deletion loop finishes with no error, the removed paths are
exactly the input list, in order. -/
theorem removeFiles_ops_of_none (rok : String → Bool) (l : List String)
    (h : (removeFiles rok l).2.1 = none) :
    removedPaths (removeFiles rok l).2.2 = l := by
  induction l with
  | nil => rfl
  | cons f rest ih =>
    rcases hrec : removeFiles rok rest with ⟨d, e, ops⟩
    by_cases hr : rok f = true
    · have h2 : e = none := by
        simpa [removeFiles, hr, hrec] using h
      have ih2 : removedPaths ops = rest := by
        have hh := ih (by rw [hrec]; exact h2)
        rwa [hrec] at hh
      simp [removeFiles, hr, hrec, removedPaths, ih2]
    · simp only [Bool.not_eq_true] at hr
      simp [removeFiles, hr] at h

/-- Elements kept by `take` precede elements dropped by `drop`, so a
pairwise-sorted list relates each kept element to each dropped one. -/
theorem pairwise_take_drop {α : Type} {R : α → α → Prop} {l : List α}
    (h : List.Pairwise R l) (n : Nat) :
    ∀ a ∈ l.take n, ∀ b ∈ l.drop n, R a b :=
  (List.pairwise_append.mp ((List.take_append_drop n l).symm ▸ h)).2.2

/-- C1 counterexample: the claim wants every deleted file strictly older
than every retained file.  With two rotated files carrying the same
modification time and a retention limit of 1, the cleanup pass succeeds,
deletes one of them and keeps the other, and the deleted file is not
older than the retained one. -/
theorem c1_counterexample :
    cleanupOldFiles 1 (fun _ => 5) (fun _ => true) ["a", "b"] =
      (["a"], none, [FsOp.remove "b"]) ∧
    ¬ (∀ d ∈ removedPaths [FsOp.remove "b"], ∀ k ∈ ["a"],
        (fun (_ : String) => (5 : Nat)) d < (fun (_ : String) => (5 : Nat)) k) := by
  constructor
  · decide
  · decide

/-- C1 amended: after a cleanup pass with `maxRotatedFiles > 0` in which
every individual deletion succeeds, the retained list has length at most
`maxRotatedFiles` and every deleted file is no newer (its modification
time is less than or equal) than every retained file; ties in
modification time can put a deleted file at the same age as a retained
one, so "strictly older" does not hold.  When `maxRotatedFiles ≤ 0` the
pass deletes nothing and leaves the list unchanged. -/
theorem c1_cleanup_retention (maxR : Int) (mt : String → Nat)
    (rok : String → Bool) (fs : List String) :
    (0 < maxR → (cleanupOldFiles maxR mt rok fs).2.1 = none →
      (((cleanupOldFiles maxR mt rok fs).1.length : Int) ≤ maxR ∧
       ∀ d ∈ removedPaths (cleanupOldFiles maxR mt rok fs).2.2,
         ∀ k ∈ (cleanupOldFiles maxR mt rok fs).1, mt d ≤ mt k)) ∧
    (maxR ≤ 0 → cleanupOldFiles maxR mt rok fs = (fs, none, [])) := by
  constructor
  · intro hpos herr
    have hnle : ¬ maxR ≤ 0 := by omega
    set sorted := List.insertionSort (newerFirst mt) fs with hsorted
    have hsort : List.Pairwise (newerFirst mt) sorted :=
      List.sorted_insertionSort (newerFirst mt) fs
    by_cases hlen : maxR < (sorted.length : Int)
    · rcases hrm : removeFiles rok (sorted.drop maxR.toNat) with ⟨d, e, ops⟩
      cases e with
      | some f =>
        exfalso
        simp only [cleanupOldFiles, hnle, if_false, ← hsorted, hlen, if_true,
          hrm] at herr
        exact Option.noConfusion herr
      | none =>
        have hres : cleanupOldFiles maxR mt rok fs =
            (sorted.take maxR.toNat, none, ops) := by
          simp only [cleanupOldFiles, hnle, if_false, ← hsorted, hlen, if_true, hrm]
        rw [hres]
        constructor
        · simp only [List.length_take]
          omega
        · have hops : removedPaths ops = sorted.drop maxR.toNat := by
            have := removeFiles_ops_of_none rok (sorted.drop maxR.toNat)
              (by rw [hrm])
            rwa [hrm] at this
          rw [hops]
          intro d hd k hk
          exact pairwise_take_drop hsort maxR.toNat k hk d hd
    · have hres : cleanupOldFiles maxR mt rok fs = (sorted, none, []) := by
        simp only [cleanupOldFiles, hnle, if_false, ← hsorted, hlen]
      rw [hres]
      constructor
      · show ((sorted.length : Int)) ≤ maxR
        omega
      · intro d hd
        simp [removedPaths] at hd
  · intro hle
    simp [cleanupOldFiles, hle]

/-- C1 witness: the amended retention theorem applied to a retention
limit of 1 over two equally old files, and to a retention limit of 0. -/
theorem c1_cleanup_retention_witness :
    (((cleanupOldFiles 1 (fun _ => 5) (fun _ => true) ["x", "y"]).1.length : Int) ≤ 1 ∧
      ∀ d ∈ removedPaths (cleanupOldFiles 1 (fun _ => 5) (fun _ => true) ["x", "y"]).2.2,
        ∀ k ∈ (cleanupOldFiles 1 (fun _ => 5) (fun _ => true) ["x", "y"]).1,
          (fun (_ : String) => (5 : Nat)) d ≤ (fun (_ : String) => (5 : Nat)) k) ∧
    cleanupOldFiles 0 (fun _ => 5) (fun _ => true) ["x", "y"] = (["x", "y"], none, []) :=
  ⟨(c1_cleanup_retention 1 (fun _ => 5) (fun _ => true) ["x", "y"]).1
      (by decide) (by decide),
   (c1_cleanup_retention 0 (fun _ => 5) (fun _ => true) ["x", "y"]).2 (by decide)⟩

/-! ## Shared helpers about the rotation and write paths -/

/-- With no rotation pending and an open file, `PerformRotation` is the
close step followed by the rename/cleanup/reopen tail. -/
theorem performRotation_open_file (s : Sys) (env : RotEnv) (h : FileHandle)
    (hp : s.pendingRotation = false) (hf : s.file = some h) :
    performRotation s env =
      match goClose h with
      | (some e, h2) =>
          (some (RotErr.closeFailed e), { s with file := some h2 }, [FsOp.closeOp])
      | (none, h2) =>
          performRotationAfterClose { s with file := some h2 } env [FsOp.closeOp] := by
  unfold performRotation
  rw [hp, hf]
  rfl

/-- When the rename and the reopen both succeed, the tail of the
rotation reports success whatever the cleanup pass did. -/
theorem afterClose_ok (s : Sys) (env : RotEnv) (ops : List FsOp)
    (hr : env.renameOk = true) (ho : env.openOk = true) :
    (performRotationAfterClose s env ops).1 = none := by
  unfold performRotationAfterClose
  rcases hcl : cleanupOldFiles s.config.maxRotatedFiles env.mt env.removeOk
      (s.rotatedFiles ++ [s.basePath ++ "." ++ goFormatTimestamp env.now]) with ⟨f2, ce, cops⟩
  simp [hr, ho, hcl]

/-- A size synchronization never touches the file handle. -/
theorem syncFileSize_file (s : Sys) (r : Option Int) (now : Int) :
    (syncFileSize s r now).file = s.file := by
  cases r <;> rfl

/-- A `ShouldRotate` call never touches the file handle. -/
theorem shouldRotate_file (s : Sys) (env : SizeEnv) (n : Int) :
    (shouldRotate s env n).2.file = s.file := by
  unfold shouldRotate
  by_cases h1 : (!s.config.rotationEnabled || s.pendingRotation) = true
  · simp [h1]
  · by_cases h2 : s.config.maxFileSize ≤ 0
    · simp [h1, h2]
    · simp only [h1, h2, Bool.false_eq_true, if_false, ite_false]
      by_cases h3 : s.sizeSyncInterval < env.now - s.lastSizeSync
      · simp only [h3, if_true]
        split <;> simp [syncFileSize_file]
      · simp only [h3, if_false]
        split <;> simp [syncFileSize_file]

/-- When the deletion loop stops with an error naming `f`, the removal
of `f` failed, every file before `f` in the list was removed
successfully, and the attempted removals are exactly those files
followed by `f` — nothing after `f` was attempted. -/
theorem removeFiles_ops_of_some (rok : String → Bool) (l : List String) (f : String)
    (h : (removeFiles rok l).2.1 = some f) :
    rok f = false ∧
    ∃ pre post, l = pre ++ f :: post ∧ (∀ g ∈ pre, rok g = true) ∧
      (removeFiles rok l).2.2 = (pre ++ [f]).map FsOp.remove := by
  induction l with
  | nil => simp [removeFiles] at h
  | cons g rest ih =>
    rcases hrec : removeFiles rok rest with ⟨d, e, ops⟩
    by_cases hg : rok g = true
    · have h2 : e = some f := by
        simpa [removeFiles, hg, hrec] using h
      subst h2
      obtain ⟨hrf, pre, post, hsplit, hpre, hops⟩ := ih (by rw [hrec])
      rw [hrec] at hops
      refine ⟨hrf, g :: pre, post, by simp [hsplit], ?_, ?_⟩
      · intro x hx
        rcases List.mem_cons.mp hx with hx | hx
        · exact hx ▸ hg
        · exact hpre x hx
      · have hops2 : ops = (pre ++ [f]).map FsOp.remove := hops
        simp [removeFiles, hg, hrec, hops2]
    · simp only [Bool.not_eq_true] at hg
      have h2 : f = g := by
        have := h
        simp [removeFiles, hg] at this
        exact this.symm
      subst h2
      exact ⟨hg, [], rest, rfl, by simp, by simp [removeFiles, hg]⟩

/-! ## C4 — cleanup behaviour on a deletion failure -/

/-- C4 counterexample: the claim says one failed deletion does not
prevent the deletion of the rest.  With files `c` (newest), `a`, `b`
(oldest), a retention limit of 1 and `os.Remove` failing only on `a`,
the pass stops at `a`: it returns the error for `a`, the only removal
attempted is of `a`, and `b` — whose deletion would succeed — is neither
attempted nor deleted, and stays in the retained list. -/
theorem c4_counterexample :
    cleanupOldFiles 1
        (fun f => if f = "c" then 3 else if f = "a" then 2 else 1)
        (fun f => !(f == "a")) ["c", "a", "b"] =
      (["c", "a", "b"], some "a", [FsOp.remove "a"]) ∧
    (fun f => !(f == "a")) "b" = true := by
  constructor
  · decide
  · decide

/-- C4 amended: a failure to delete one rotated file aborts the rest of
the cleanup pass: the first failing file is returned as the error, the
files sorted before it were removed, nothing after it is attempted, and
the rotated-files list is left as the full sorted list.  The rotation
itself still succeeds — `PerformRotation` treats any cleanup error as a
warning, and reports success whenever the close, rename and reopen steps
succeed. -/
theorem c4_cleanup_abort (maxR : Int) (mt : String → Nat) (rok : String → Bool)
    (fs : List String) (f : String)
    (herr : (cleanupOldFiles maxR mt rok fs).2.1 = some f) :
    (rok f = false ∧
     ∃ pre post,
       (List.insertionSort (newerFirst mt) fs).drop maxR.toNat = pre ++ f :: post ∧
       (∀ g ∈ pre, rok g = true) ∧
       (cleanupOldFiles maxR mt rok fs).2.2 = (pre ++ [f]).map FsOp.remove ∧
       (cleanupOldFiles maxR mt rok fs).1 = List.insertionSort (newerFirst mt) fs) ∧
    (∀ (s : Sys) (env : RotEnv), s.pendingRotation = false → closeStepOk s →
       env.renameOk = true → env.openOk = true →
       (performRotation s env).1 = none) := by
  constructor
  · by_cases hnle : maxR ≤ 0
    · exfalso
      simp [cleanupOldFiles, hnle] at herr
    · set sorted := List.insertionSort (newerFirst mt) fs with hsorted
      by_cases hlen : maxR < (sorted.length : Int)
      · rcases hrm : removeFiles rok (sorted.drop maxR.toNat) with ⟨d, e, ops⟩
        cases e with
        | some f0 =>
          have hres : cleanupOldFiles maxR mt rok fs = (sorted, some f0, ops) := by
            simp only [cleanupOldFiles, hnle, if_false, ← hsorted, hlen, if_true, hrm]
          have hf0 : f0 = f := by
            rw [hres] at herr
            exact Option.some.inj herr
          subst hf0
          obtain ⟨hrf, pre, post, hsplit, hpre, hops⟩ :=
            removeFiles_ops_of_some rok (sorted.drop maxR.toNat) f0 (by rw [hrm])
          rw [hrm] at hops
          exact ⟨hrf, pre, post, hsplit, hpre, by rw [hres]; exact hops,
            by rw [hres]⟩
        | none =>
          exfalso
          have hres : cleanupOldFiles maxR mt rok fs =
              (sorted.take maxR.toNat, none, ops) := by
            simp only [cleanupOldFiles, hnle, if_false, ← hsorted, hlen, if_true, hrm]
          rw [hres] at herr
          exact Option.noConfusion herr
      · exfalso
        have hres : cleanupOldFiles maxR mt rok fs = (sorted, none, []) := by
          simp only [cleanupOldFiles, hnle, if_false, ← hsorted, hlen]
        rw [hres] at herr
        exact Option.noConfusion herr
  · intro s env hp hc hr ho
    cases hf : s.file with
    | none =>
      have he : performRotation s env = performRotationAfterClose s env [] := by
        unfold performRotation
        rw [hp, hf]
        rfl
      rw [he]
      exact afterClose_ok s env [] hr ho
    | some h =>
      obtain ⟨hcl, hcr⟩ := hc h hf
      have hgc : goClose h = (none, { h with closed := true }) := by
        simp [goClose, hcl, hcr]
      rw [performRotation_open_file s env h hp hf, hgc]
      exact afterClose_ok { s with file := some { h with closed := true } }
        env [FsOp.closeOp] hr ho

/-- C4 witness: the abort theorem applied to the three-file example in
which only the removal of `a` fails. -/
theorem c4_cleanup_abort_witness :
    ((fun f => !(f == "a")) "a" = false ∧
     ∃ pre post,
       (List.insertionSort
           (newerFirst (fun f => if f = "c" then 3 else if f = "a" then 2 else 1))
           ["c", "a", "b"]).drop (1 : Int).toNat = pre ++ "a" :: post ∧
       (∀ g ∈ pre, (fun f => !(f == "a")) g = true) ∧
       (cleanupOldFiles 1
           (fun f => if f = "c" then 3 else if f = "a" then 2 else 1)
           (fun f => !(f == "a")) ["c", "a", "b"]).2.2 =
         (pre ++ ["a"]).map FsOp.remove ∧
       (cleanupOldFiles 1
           (fun f => if f = "c" then 3 else if f = "a" then 2 else 1)
           (fun f => !(f == "a")) ["c", "a", "b"]).1 =
         List.insertionSort
           (newerFirst (fun f => if f = "c" then 3 else if f = "a" then 2 else 1))
           ["c", "a", "b"]) ∧
    (∀ (s : Sys) (env : RotEnv), s.pendingRotation = false → closeStepOk s →
       env.renameOk = true → env.openOk = true →
       (performRotation s env).1 = none) :=
  c4_cleanup_abort 1 (fun f => if f = "c" then 3 else if f = "a" then 2 else 1)
    (fun f => !(f == "a")) ["c", "a", "b"] "a" (by decide)

/-! ## C7 — close errors during rotation -/

/-- C7 counterexample: the claim says an "already closed" close error is
ignored and the rotation proceeds.  On a state whose open handle reports
`os.ErrClosed` from `Close()`, `PerformRotation` aborts with that error:
the only operation performed is the close, and no rename or reopen
happens. -/
theorem c7_counterexample :
    performRotation
        { sampleSys with
            file := some { sampleHandle with closeRes := some CloseErr.alreadyClosed } }
        sampleRotEnv =
      (some (RotErr.closeFailed CloseErr.alreadyClosed),
       { sampleSys with
           file := some { sampleHandle with
                            closeRes := some CloseErr.alreadyClosed, closed := true } },
       [FsOp.closeOp]) := by
  decide

/-- C7 amended: every close error aborts the rotation attempt and is
propagated to the caller wrapped as a close failure — the source makes
no exception for "already closed"; the attempt performs no rename and no
reopen, and only the handle's closed flag changes. -/
theorem c7_close_error_aborts (s : Sys) (env : RotEnv) (h : FileHandle) (e : CloseErr)
    (hp : s.pendingRotation = false) (hf : s.file = some h)
    (hcl : h.closed = false) (hcr : h.closeRes = some e) :
    performRotation s env =
      (some (RotErr.closeFailed e),
       { s with file := some { h with closed := true } }, [FsOp.closeOp]) := by
  have hgc : goClose h = (some e, { h with closed := true }) := by
    simp [goClose, hcl, hcr]
  rw [performRotation_open_file s env h hp hf, hgc]

/-- C7 witness: the abort theorem applied to a handle whose close fails
with an error other than "already closed". -/
theorem c7_close_error_aborts_witness :
    performRotation
        { sampleSys with
            file := some { sampleHandle with closeRes := some (CloseErr.other "io") } }
        sampleRotEnv =
      (some (RotErr.closeFailed (CloseErr.other "io")),
       { sampleSys with
           file := some { sampleHandle with
                            closeRes := some (CloseErr.other "io"), closed := true } },
       [FsOp.closeOp]) :=
  c7_close_error_aborts
    { sampleSys with
        file := some { sampleHandle with closeRes := some (CloseErr.other "io") } }
    sampleRotEnv
    { sampleHandle with closeRes := some (CloseErr.other "io") }
    (CloseErr.other "io") rfl rfl rfl rfl

/-! ## C9 — the size cache after a successful write -/

/-- A write environment for a 200-byte entry (199 bytes of JSON plus the
newline), with a fresh clock and successful stats. -/
def c9Env : WriteEnv :=
  { marshalOk := true
    jsonLen := 199
    sizeEnv := { now := 5, stat1 := some 0, stat2 := some 0 }
    rotEnv := sampleRotEnv }

/-- C9: a successful 200-byte write through `writeEntry` on the sample
state (limit 1000, cache fresh, no rotation triggered) increments only
the logger's `currentSize`; the rotation manager's `cachedFileSize` —
the cache `ShouldRotate` consults — is left untouched, because `writeEntry`
never calls `updateCachedSize` (the last conjunct shows that function
would have performed exactly the increment the claim describes). -/
theorem c9_cache_not_updated :
    (writeEntry sampleSys c9Env).1 = WriteResult.ok ∧
    (writeEntry sampleSys c9Env).2.currentSize = sampleSys.currentSize + 200 ∧
    (writeEntry sampleSys c9Env).2.cachedFileSize = sampleSys.cachedFileSize ∧
    (writeEntry sampleSys c9Env).2.cachedFileSize ≠ sampleSys.cachedFileSize + 200 ∧
    (updateCachedSize sampleSys 200).cachedFileSize = sampleSys.cachedFileSize + 200 := by
  refine ⟨by decide, by decide, by decide, by decide, by decide⟩

/-! ## C10 — rename failure and subsequent writes -/

/-- C10: when the close step succeeds but the rename fails,
`PerformRotation` returns an error, the rotated-files list is unchanged,
and the logger's file field still holds the now-closed handle (nothing
was reopened).  Consequently — second conjunct — on any state whose file
field holds a closed handle, with `AutoSave` on and the entry
marshalling fine, `writeEntry` returns an error (never a panic; the Go
file write returns `ErrClosed`) and leaves the closed handle in place,
so every subsequent write keeps failing the same way. -/
theorem c10_rename_failure (s : Sys) (env : RotEnv) (h : FileHandle)
    (hp : s.pendingRotation = false) (hf : s.file = some h)
    (hcl : h.closed = false) (hcr : h.closeRes = none)
    (hr : env.renameOk = false) :
    ((performRotation s env).1 = some RotErr.renameFailed ∧
     (performRotation s env).2.1.rotatedFiles = s.rotatedFiles ∧
     (performRotation s env).2.1.file = some { h with closed := true }) ∧
    (∀ (t : Sys) (we : WriteEnv) (g : FileHandle),
       t.file = some g → g.closed = true → t.config.autoSave = true →
       we.marshalOk = true →
       (∃ e2, (writeEntry t we).1 = WriteResult.err e2) ∧
       (∃ g2, (writeEntry t we).2.file = some g2 ∧ g2.closed = true)) := by
  constructor
  · have hgc : goClose h = (none, { h with closed := true }) := by
      simp [goClose, hcl, hcr]
    have heq : performRotation s env =
        (some RotErr.renameFailed,
         { s with file := some { h with closed := true } },
         [FsOp.closeOp,
          FsOp.rename s.basePath (s.basePath ++ "." ++ goFormatTimestamp env.now)]) := by
      rw [performRotation_open_file s env h hp hf, hgc]
      unfold performRotationAfterClose
      rw [hr]
      rfl
    rw [heq]
    exact ⟨rfl, rfl, rfl⟩
  · intro t we g htf hgcl hauto hm
    have hwb : ∀ u : Sys, u.file = some g →
        writeBytes u ((we.jsonLen : Int) + 1) =
          (WriteResult.err WriteErr.writeFailed, u) := by
      intro u huf
      unfold writeBytes
      rw [huf]
      simp [hgcl]
    have hcond : (t.config.autoSave && t.file.isSome) = true := by
      rw [hauto, htf]
      rfl
    by_cases hrm : t.rmPresent = true
    · rcases hsr : shouldRotate t we.sizeEnv ((we.jsonLen : Int) + 1) with ⟨b, t1⟩
      have ht1f : t1.file = some g := by
        have hh := shouldRotate_file t we.sizeEnv ((we.jsonLen : Int) + 1)
        rw [hsr] at hh
        rw [hh, htf]
      have hwe0 : writeEntry t we =
          match shouldRotate t we.sizeEnv ((we.jsonLen : Int) + 1) with
          | (true, s1) =>
            match performRotation s1 we.rotEnv with
            | (some e, s2, _) => (WriteResult.err (WriteErr.rotationFailed e), s2)
            | (none, s2, _) => writeBytes s2 ((we.jsonLen : Int) + 1)
          | (false, s1) => writeBytes s1 ((we.jsonLen : Int) + 1) := by
        unfold writeEntry
        rw [hm, hcond, hrm]
        rfl
      cases b with
      | false =>
        have hwe2 : writeEntry t we = writeBytes t1 ((we.jsonLen : Int) + 1) := by
          rw [hwe0, hsr]
        rw [hwe2, hwb t1 ht1f]
        exact ⟨⟨WriteErr.writeFailed, rfl⟩, ⟨g, ht1f, hgcl⟩⟩
      | true =>
        have hwe1 : writeEntry t we =
            match performRotation t1 we.rotEnv with
            | (some e, s2, _) => (WriteResult.err (WriteErr.rotationFailed e), s2)
            | (none, s2, _) => writeBytes s2 ((we.jsonLen : Int) + 1) := by
          rw [hwe0, hsr]
        by_cases hpend : t1.pendingRotation = true
        · have hpr : performRotation t1 we.rotEnv = (none, t1, []) := by
            unfold performRotation
            rw [hpend]
            rfl
          have hwe2 : writeEntry t we = writeBytes t1 ((we.jsonLen : Int) + 1) := by
            rw [hwe1, hpr]
          rw [hwe2, hwb t1 ht1f]
          exact ⟨⟨WriteErr.writeFailed, rfl⟩, ⟨g, ht1f, hgcl⟩⟩
        · simp only [Bool.not_eq_true] at hpend
          have hgc2 : goClose g = (some CloseErr.alreadyClosed, g) := by
            simp [goClose, hgcl]
          have hpr : performRotation t1 we.rotEnv =
              (some (RotErr.closeFailed CloseErr.alreadyClosed),
               { t1 with file := some g }, [FsOp.closeOp]) := by
            rw [performRotation_open_file t1 we.rotEnv g hpend ht1f, hgc2]
          have hwe2 : writeEntry t we =
              (WriteResult.err (WriteErr.rotationFailed
                  (RotErr.closeFailed CloseErr.alreadyClosed)),
               { t1 with file := some g }) := by
            rw [hwe1, hpr]
          rw [hwe2]
          exact ⟨⟨WriteErr.rotationFailed (RotErr.closeFailed CloseErr.alreadyClosed), rfl⟩,
            ⟨g, rfl, hgcl⟩⟩
    · simp only [Bool.not_eq_true] at hrm
      have hwe2 : writeEntry t we = writeBytes t ((we.jsonLen : Int) + 1) := by
        unfold writeEntry
        rw [hm, hcond, hrm]
        rfl
      rw [hwe2, hwb t htf]
      exact ⟨⟨WriteErr.writeFailed, rfl⟩, ⟨g, htf, hgcl⟩⟩

/-- C10 witness: the rename-failure theorem applied to the sample state
with a failing rename. -/
theorem c10_rename_failure_witness :
    ((performRotation sampleSys { sampleRotEnv with renameOk := false }).1 =
        some RotErr.renameFailed ∧
     (performRotation sampleSys { sampleRotEnv with renameOk := false }).2.1.rotatedFiles =
        sampleSys.rotatedFiles ∧
     (performRotation sampleSys { sampleRotEnv with renameOk := false }).2.1.file =
        some { sampleHandle with closed := true }) ∧
    (∀ (t : Sys) (we : WriteEnv) (g : FileHandle),
       t.file = some g → g.closed = true → t.config.autoSave = true →
       we.marshalOk = true →
       (∃ e2, (writeEntry t we).1 = WriteResult.err e2) ∧
       (∃ g2, (writeEntry t we).2.file = some g2 ∧ g2.closed = true)) :=
  c10_rename_failure sampleSys { sampleRotEnv with renameOk := false }
    sampleHandle rfl rfl rfl rfl rfl

end VibeLogger
